import Mathlib

/-!
Verification of the Tauri command-bridge backend
(`src/templates/tauri-cross-platform/src-tauri/src/main.rs`).

The file embeds the four command handlers (`greet`, `get_system_info`,
`read_file`, `write_file`) and the dispatch table built by
`tauri::generate_handler!`, and proves the specified properties about them.
Machine strings are Lean `String`s; the filesystem touched by `std::fs`
is an explicit state threaded through the handlers.
-/

namespace TauriBridge

/-- One-placeholder interpolation over a character list: replaces the first
occurrence of the placeholder `\x7b\x7d` by the argument, embedding Rust
`format!(template, arg)` with a single positional `\x7b\x7d` hole. -/
def interpOne : List Char → String → List Char
  | [], _ => []
  | '{' :: '}' :: rest, arg => arg.data ++ rest
  | c :: rest, arg => c :: interpOne rest arg

/-- Rust `format!` with one placeholder, on `String`. -/
def format1 (template arg : String) : String := ⟨interpOne template.data arg⟩

/-- `greet` from main.rs:
`format!("Hello, \x7b\x7d! You've been greeted from Rust!", name)`. -/
def greet (name : String) : String :=
  format1 "Hello, {}! You\x27ve been greeted from Rust!" name

/-- Modelled from the spec: the build constants `std::env::consts::OS` and
`std::env::consts::ARCH` and the Cargo manifest read by
`env!("CARGO_PKG_VERSION")` are not part of `src/`; they are process/build
environment values (Section 6 of the spec: "operating-system identifier,
CPU-architecture identifier, build-version string ... resolved ... from
process/build context"). `os` and `arch` range over the value sets the Rust
standard library documents for these constants, each a fixed non-empty
identifier string; `cargoPkgVersion` is the version string declared in the
build manifest. -/
structure BuildEnv where
  os : { s : String // s ∈ (["linux", "macos", "ios", "freebsd", "dragonfly",
           "netbsd", "openbsd", "solaris", "android", "windows"] : List String) }
  arch : { s : String // s ∈ (["x86", "x86_64", "arm", "aarch64", "loongarch64",
           "m68k", "mips", "mips64", "csky", "powerpc", "powerpc64", "riscv32",
           "riscv64", "s390x", "sparc64"] : List String) }
  cargoPkgVersion : String

/-- The record serialized by `get_system_info` via `serde_json::json!`:
`{platform, architecture, version}`. -/
structure SystemInfo where
  platform : String
  architecture : String
  version : String
  deriving DecidableEq, Repr

/-- `get_system_info` from main.rs: builds the snapshot from the build
constants. -/
def get_system_info (env : BuildEnv) : SystemInfo :=
  { platform := env.os.val
    architecture := env.arch.val
    version := env.cargoPkgVersion }

/-- Modelled from the spec: the filesystem behind `std::fs::read_to_string`
and `std::fs::write` is outside `src/`.  `files` gives the text contents of
each existing regular file (`none` = no file at that path); `readable` is
false at paths where a read of an existing file fails (permission denied,
invalid encoding — spec Section 4.1); `writable` is false at paths where a
write fails (in particular every path inside a nonexistent directory — spec
Section 8: "`write_file` to a path in a nonexistent directory yields
Failure"); `readDetail`/`writeDetail` give the underlying OS error
description (the `\x7b\x7d`-formatted `std::io::Error`) for a failing read or
write at that path. -/
structure FileSystem where
  files : String → Option String
  readable : String → Bool
  writable : String → Bool
  readDetail : String → String
  writeDetail : String → String

/-- Modelled from the spec: `std::fs::read_to_string(path)` — returns the
contents of the file at `path` when it exists and is readable as text, and
the OS error description otherwise. -/
def fsReadToString (fs : FileSystem) (path : String) : Except String String :=
  match fs.files path with
  | some c => if fs.readable path then .ok c else .error (fs.readDetail path)
  | none => .error (fs.readDetail path)

/-- Modelled from the spec: `std::fs::write(path, content)` — overwrites or
creates the file at `path` (spec Section 4.1: "attempts to overwrite (or
create) the file at `path`"), leaving every other path untouched; the file
just written holds exactly the UTF-8 `content` and is readable back.  Fails
with the OS error description when the path is not writable. -/
def fsWrite (fs : FileSystem) (path content : String) :
    Except String Unit × FileSystem :=
  if fs.writable path then
    (.ok (),
     { fs with
        files := fun q => if q = path then some content else fs.files q
        readable := fun q => if q = path then true else fs.readable q })
  else
    (.error (fs.writeDetail path), fs)

/-- `read_file` from main.rs:
`std::fs::read_to_string(&path).map_err(|e| format!("ファイル読み込みエラー: \x7b\x7d", e))`.
The handler does not change the filesystem; the state is returned alongside
the `Result` to make that explicit. -/
def read_file (fs : FileSystem) (path : String) :
    Except String String × FileSystem :=
  ((fsReadToString fs path).mapError
    (fun e => format1 "ファイル読み込みエラー: {}" e), fs)

/-- `write_file` from main.rs:
`std::fs::write(&path, content).map_err(|e| format!("ファイル書き込みエラー: \x7b\x7d", e))`. -/
def write_file (fs : FileSystem) (path content : String) :
    Except String Unit × FileSystem :=
  let r := fsWrite fs path content
  (r.1.mapError (fun e => format1 "ファイル書き込みエラー: {}" e), r.2)

/-- The arguments of one boundary invocation, as deserialized by the glue
that `tauri::generate_handler!` produces: each handler has its own argument
shape (`greet` takes `name`, `get_system_info` takes nothing, `read_file`
takes `path`, `write_file` takes `path` and `content`). -/
inductive Args
  | greetArgs (name : String)
  | noArgs
  | pathArgs (path : String)
  | pathContentArgs (path content : String)
  deriving DecidableEq, Repr

/-- A handler success value crossing the boundary: `greet` returns a string,
`get_system_info` the serialized `SystemInfo` record, `read_file` the file
contents, `write_file` unit. -/
inductive Value
  | str (s : String)
  | sysInfo (i : SystemInfo)
  | unit
  deriving DecidableEq, Repr

/-- What one invocation returns across the boundary: a handler success
value, a handler `Failure` message (the `Err` of a handler `Result`), or a
boundary-level error produced by the dispatcher itself (unknown command
name, or arguments that do not deserialize to the handler signature). -/
inductive InvokeOutcome
  | success (v : Value)
  | failure (msg : String)
  | boundaryError (msg : String)
  deriving DecidableEq, Repr

/-- The command names registered by
`tauri::generate_handler![greet, get_system_info, read_file, write_file]`
in main.rs, in registration order. -/
def registeredCommands : List String :=
  ["greet", "get_system_info", "read_file", "write_file"]

/-- The dispatcher built by `invoke_handler(tauri::generate_handler![...])`:
matches the invocation name against the registered commands, deserializes
the arguments, runs the handler, and converts its return value.  A name
outside `registeredCommands` (or an argument shape not matching the named
handler) never reaches a handler and yields a boundary-level error. -/
def invoke (env : BuildEnv) (fs : FileSystem) (name : String) (args : Args) :
    InvokeOutcome × FileSystem :=
  if name = "greet" then
    match args with
    | .greetArgs n => (.success (.str (greet n)), fs)
    | _ => (.boundaryError ("invalid args for command " ++ name), fs)
  else if name = "get_system_info" then
    match args with
    | .noArgs => (.success (.sysInfo (get_system_info env)), fs)
    | _ => (.boundaryError ("invalid args for command " ++ name), fs)
  else if name = "read_file" then
    match args with
    | .pathArgs p =>
        let r := read_file fs p
        (match r.1 with
         | .ok c => .success (.str c)
         | .error m => .failure m, r.2)
    | _ => (.boundaryError ("invalid args for command " ++ name), fs)
  else if name = "write_file" then
    match args with
    | .pathContentArgs p c =>
        let r := write_file fs p c
        (match r.1 with
         | .ok _ => .success .unit
         | .error m => .failure m, r.2)
    | _ => (.boundaryError ("invalid args for command " ++ name), fs)
  else
    (.boundaryError ("command " ++ name ++ " not found"), fs)

/-- A filesystem with no files, nothing readable, nothing writable: the
state seen by a process pointed at paths inside a directory that does not
exist. -/
def fsDemo : FileSystem :=
  { files := fun _ => none
    readable := fun _ => false
    writable := fun _ => false
    readDetail := fun _ => "No such file or directory (os error 2)"
    writeDetail := fun _ => "No such file or directory (os error 2)" }

/-- A filesystem with no files yet but where every path can be created. -/
def fsRW : FileSystem :=
  { files := fun _ => none
    readable := fun _ => true
    writable := fun _ => true
    readDetail := fun _ => "No such file or directory (os error 2)"
    writeDetail := fun _ => "permission denied (os error 13)" }

/-- A filesystem where the file exists but reading it fails: the
permission-denied / invalid-encoding shape of I/O error. -/
def fsLocked : FileSystem :=
  { files := fun _ => some "secret"
    readable := fun _ => false
    writable := fun _ => false
    readDetail := fun _ => "Permission denied (os error 13)"
    writeDetail := fun _ => "Permission denied (os error 13)" }

/-- A concrete build environment for witnesses. -/
def envDemo : BuildEnv :=
  ⟨⟨"linux", by decide⟩, ⟨"x86_64", by decide⟩, "0.1.0"⟩

end TauriBridge

namespace TauriBridge

theorem format1_read_err (e : String) :
    format1 "ファイル読み込みエラー: {}" e = "ファイル読み込みエラー: " ++ e := by
  show (⟨interpOne _ e⟩ : String) = _
  simp [interpOne, String.ext_iff]

theorem format1_write_err (e : String) :
    format1 "ファイル書き込みエラー: {}" e = "ファイル書き込みエラー: " ++ e := by
  show (⟨interpOne _ e⟩ : String) = _
  simp [interpOne, String.ext_iff]

/-- C4: `greet` is a pure, total function: for every string `s`, `greet s`
is exactly `"Hello, " ++ s ++ "! You've been greeted from Rust!"`. -/
theorem greet_spec (s : String) :
    greet s = "Hello, " ++ s ++ "! You\x27ve been greeted from Rust!" := by
  show (⟨interpOne _ s⟩ : String) = _
  simp [interpOne, String.ext_iff]

/-- C5: `get_system_info` always succeeds and returns a record whose
`platform` and `architecture` fields are non-empty strings and whose
`version` field equals the build's declared package version string. -/
theorem get_system_info_spec (env : BuildEnv) :
    (get_system_info env).platform ≠ "" ∧
    (get_system_info env).architecture ≠ "" ∧
    (get_system_info env).version = env.cargoPkgVersion := by
  obtain ⟨⟨os, hos⟩, ⟨arch, harch⟩, v⟩ := env
  refine ⟨?_, ?_, rfl⟩
  · show os ≠ ""
    fin_cases hos <;> decide
  · show arch ≠ ""
    fin_cases harch <;> decide

theorem read_file_result (fs : FileSystem) (p : String) :
    (∃ c, fs.files p = some c ∧ fs.readable p = true ∧
        (read_file fs p).1 = .ok c) ∨
      ((fs.files p = none ∨ fs.readable p = false) ∧
        (read_file fs p).1 =
          .error ("ファイル読み込みエラー: " ++ fs.readDetail p)) := by
  unfold read_file fsReadToString
  cases h : fs.files p with
  | none =>
      exact Or.inr ⟨Or.inl rfl, by simp [Except.mapError, format1_read_err]⟩
  | some c =>
      cases hr : fs.readable p with
      | true => exact Or.inl ⟨c, rfl, rfl, by simp [Except.mapError]⟩
      | false =>
          exact Or.inr ⟨Or.inr rfl,
            by simp [Except.mapError, format1_read_err]⟩

theorem write_file_cases (fs : FileSystem) (p c : String) :
    (fs.writable p = true ∧ (write_file fs p c).1 = .ok ()) ∨
      (fs.writable p = false ∧ (write_file fs p c).1 =
        .error ("ファイル書き込みエラー: " ++ fs.writeDetail p)) := by
  unfold write_file fsWrite
  cases hw : fs.writable p with
  | true => exact Or.inl ⟨rfl, by simp [Except.mapError]⟩
  | false =>
      exact Or.inr ⟨rfl, by simp [Except.mapError, format1_write_err]⟩

/-- C2: `read_file` always returns either `Success` (with the file
contents) or `Failure` whose message carries the underlying error detail;
on every I/O error in the model — the file does not exist, or it exists
but reading it fails (permission denied, invalid encoding) — it returns
`Failure` and never `Success`, in particular never a silent empty
string. -/
theorem read_file_spec (fs : FileSystem) (p : String) :
    ((∃ c, fs.files p = some c ∧ (read_file fs p).1 = .ok c) ∨
      (read_file fs p).1 =
        .error ("ファイル読み込みエラー: " ++ fs.readDetail p)) ∧
    (fs.files p = none ∨ fs.readable p = false →
      (read_file fs p).1 =
        .error ("ファイル読み込みエラー: " ++ fs.readDetail p) ∧
      ∀ c, (read_file fs p).1 ≠ .ok c) := by
  have hmain := read_file_result fs p
  constructor
  · rcases hmain with ⟨c, hc, _, hok⟩ | ⟨_, herr⟩
    · exact Or.inl ⟨c, hc, hok⟩
    · exact Or.inr herr
  · intro hn
    have herr : (read_file fs p).1 =
        .error ("ファイル読み込みエラー: " ++ fs.readDetail p) := by
      rcases hmain with ⟨c, hc, hr, _⟩ | ⟨_, herr⟩
      · rcases hn with hn | hn
        · rw [hn] at hc; exact absurd hc (by simp)
        · rw [hn] at hr; exact absurd hr (by simp)
      · exact herr
    exact ⟨herr, fun c hc => by rw [herr] at hc; exact absurd hc (by simp)⟩

theorem read_file_spec_witness :
    ((read_file fsDemo "config.toml").1 =
        .error "ファイル読み込みエラー: No such file or directory (os error 2)" ∧
      ∀ c, (read_file fsDemo "config.toml").1 ≠ .ok c) ∧
    ((read_file fsLocked "secret.txt").1 =
        .error "ファイル読み込みエラー: Permission denied (os error 13)" ∧
      ∀ c, (read_file fsLocked "secret.txt").1 ≠ .ok c) :=
  ⟨(read_file_spec fsDemo "config.toml").2 (Or.inl rfl),
   (read_file_spec fsLocked "secret.txt").2 (Or.inr rfl)⟩

/-- C3: `write_file` always returns either `Success` or `Failure` whose
message carries the underlying error detail; on a non-writable path — in
particular a path inside a nonexistent directory — it returns `Failure`. -/
theorem write_file_spec (fs : FileSystem) (p c : String) :
    ((write_file fs p c).1 = .ok () ∨
      (write_file fs p c).1 =
        .error ("ファイル書き込みエラー: " ++ fs.writeDetail p)) ∧
    (fs.writable p = false →
      (write_file fs p c).1 =
        .error ("ファイル書き込みエラー: " ++ fs.writeDetail p)) := by
  rcases write_file_cases fs p c with ⟨hw, hok⟩ | ⟨hw, herr⟩
  · exact ⟨Or.inl hok, fun h => by rw [hw] at h; exact absurd h (by decide)⟩
  · exact ⟨Or.inr herr, fun _ => herr⟩

theorem write_file_spec_witness :
    fsDemo.writable "missing-dir/out.txt" = false ∧
    (write_file fsDemo "missing-dir/out.txt" "data").1 =
      .error "ファイル書き込みエラー: No such file or directory (os error 2)" :=
  ⟨rfl, (write_file_spec fsDemo "missing-dir/out.txt" "data").2 rfl⟩

/-- C1 counterexample: the unconditional round-trip fails when the write
itself fails.  On a filesystem where the path sits inside a nonexistent
directory, `write_file` returns `Failure` (as the spec itself requires) and
the subsequent `read_file` returns `Failure`, not `Success` with the
content. -/
theorem roundtrip_counterexample :
    (read_file (write_file fsDemo "missing-dir/out.txt" "hello").2
        "missing-dir/out.txt").1 ≠ .ok "hello" := by
  have h : (read_file (write_file fsDemo "missing-dir/out.txt" "hello").2
      "missing-dir/out.txt").1 =
      .error "ファイル読み込みエラー: No such file or directory (os error 2)" := rfl
  rw [h]
  exact fun hc => Except.noConfusion hc

/-- C1 amended: for every filesystem, path `p` and content `c`, if
`write_file p c` returns `Success`, then `read_file p` on the resulting
state returns `Success` with value exactly `c`. -/
theorem roundtrip_spec (fs : FileSystem) (p c : String) :
    (write_file fs p c).1 = .ok () →
    (read_file (write_file fs p c).2 p).1 = .ok c := by
  unfold write_file fsWrite read_file fsReadToString
  cases hw : fs.writable p with
  | true => intro _; simp [Except.mapError]
  | false => intro h; exact absurd h (by simp [Except.mapError])

theorem roundtrip_spec_witness :
    (write_file fsRW "notes.txt" "hello").1 = .ok () ∧
    (read_file (write_file fsRW "notes.txt" "hello").2 "notes.txt").1 =
      .ok "hello" :=
  ⟨rfl, roundtrip_spec fsRW "notes.txt" "hello" rfl⟩

/-- C8: if `write_file p c` returns `Success` then afterwards the file at
`p` exists and its contents are exactly `c`, whether or not a file existed
at `p` before the call. -/
theorem write_ok_contents (fs : FileSystem) (p c : String) :
    (write_file fs p c).1 = .ok () →
    (write_file fs p c).2.files p = some c := by
  unfold write_file fsWrite
  cases hw : fs.writable p with
  | true => intro _; simp
  | false => intro h; exact absurd h (by simp [Except.mapError])

theorem write_ok_contents_witness :
    ((write_file fsRW "a.txt" "fresh").1 = .ok () ∧
      (write_file fsRW "a.txt" "fresh").2.files "a.txt" = some "fresh") ∧
    ((write_file (write_file fsRW "a.txt" "fresh").2 "a.txt" "overwritten").1 =
        .ok () ∧
      (write_file (write_file fsRW "a.txt" "fresh").2 "a.txt"
          "overwritten").2.files "a.txt" = some "overwritten") :=
  ⟨⟨rfl, write_ok_contents fsRW "a.txt" "fresh" rfl⟩,
   ⟨rfl, write_ok_contents (write_file fsRW "a.txt" "fresh").2 "a.txt"
      "overwritten" rfl⟩⟩

/-- C9: `write_file p c` modifies at most the entry at `p`: every other
path keeps its contents, existence and readability, whether the call
returns `Success` or `Failure`; `read_file` leaves the filesystem state
entirely unchanged. -/
theorem frame_spec :
    (∀ (fs : FileSystem) (p c q : String), q ≠ p →
      (write_file fs p c).2.files q = fs.files q ∧
      (write_file fs p c).2.readable q = fs.readable q ∧
      (write_file fs p c).2.writable q = fs.writable q) ∧
    (∀ (fs : FileSystem) (p : String), (read_file fs p).2 = fs) := by
  constructor
  · intro fs p c q hq
    unfold write_file fsWrite
    cases hw : fs.writable p with
    | true => simp [hq]
    | false => exact ⟨rfl, rfl, rfl⟩
  · intro fs p
    rfl

theorem frame_spec_witness :
    (write_file fsRW "a.txt" "fresh").2.files "b.txt" = none ∧
    (read_file fsRW "a.txt").2 = fsRW :=
  ⟨(frame_spec.1 fsRW "a.txt" "fresh" "b.txt" (by decide)).1,
   frame_spec.2 fsRW "a.txt"⟩

/-- C10: every `read_file` failure message is exactly the prefix
`"ファイル読み込みエラー: "` followed by the underlying error description, and
every `write_file` failure message is exactly `"ファイル書き込みエラー: "`
followed by the underlying error description. -/
theorem error_message_format :
    (∀ (fs : FileSystem) (p m : String), (read_file fs p).1 = .error m →
      m = "ファイル読み込みエラー: " ++ fs.readDetail p) ∧
    (∀ (fs : FileSystem) (p c m : String),
      (write_file fs p c).1 = .error m →
      m = "ファイル書き込みエラー: " ++ fs.writeDetail p) := by
  constructor
  · intro fs p m hm
    rcases read_file_result fs p with ⟨c, _, _, hok⟩ | ⟨_, herr⟩
    · rw [hok] at hm; exact absurd hm (by simp)
    · rw [herr] at hm
      injection hm with h
      exact h.symm
  · intro fs p c m hm
    rcases write_file_cases fs p c with ⟨_, hok⟩ | ⟨_, herr⟩
    · rw [hok] at hm; exact absurd hm (by simp)
    · rw [herr] at hm
      injection hm with h
      exact h.symm

theorem error_message_format_witness :
    (read_file fsDemo "x.txt").1 =
      .error "ファイル読み込みエラー: No such file or directory (os error 2)" ∧
    "ファイル読み込みエラー: No such file or directory (os error 2)" =
      "ファイル読み込みエラー: " ++ fsDemo.readDetail "x.txt" :=
  ⟨rfl,
   error_message_format.1 fsDemo "x.txt"
     "ファイル読み込みエラー: No such file or directory (os error 2)" rfl⟩

/-- C7: the registry holds exactly the four names `greet`,
`get_system_info`, `read_file` and `write_file`, each registered once;
invoking any name outside this set yields a boundary-level error for that
invocation only — leaving the filesystem untouched — and a boundary-level
error is distinct from every handler `Failure` value, while every
registered name invoked with its own argument shape reaches its handler
and never produces a boundary-level error. -/
theorem invoke_registry_spec :
    registeredCommands = ["greet", "get_system_info", "read_file", "write_file"] ∧
    registeredCommands.Nodup ∧
    (∀ (name : String), name ∉ registeredCommands →
      ∀ (env : BuildEnv) (fs : FileSystem) (args : Args),
        (invoke env fs name args).1 =
          .boundaryError ("command " ++ name ++ " not found") ∧
        (invoke env fs name args).2 = fs) ∧
    (∀ (m m' : String), InvokeOutcome.boundaryError m ≠ .failure m') ∧
    (∀ name ∈ registeredCommands, ∃ args : Args,
      ∀ (env : BuildEnv) (fs : FileSystem) (m : String),
        (invoke env fs name args).1 ≠ .boundaryError m) := by
  refine ⟨rfl, by decide, ?_, fun m m' => by simp, ?_⟩
  · intro name hname env fs args
    have h1 : ¬name = "greet" := fun h => hname (h ▸ by decide)
    have h2 : ¬name = "get_system_info" := fun h => hname (h ▸ by decide)
    have h3 : ¬name = "read_file" := fun h => hname (h ▸ by decide)
    have h4 : ¬name = "write_file" := fun h => hname (h ▸ by decide)
    unfold invoke
    simp [h1, h2, h3, h4]
  · intro name hname
    fin_cases hname
    · exact ⟨.greetArgs "x", fun env fs m => by simp [invoke]⟩
    · exact ⟨.noArgs, fun env fs m => by simp [invoke]⟩
    · refine ⟨.pathArgs "x", fun env fs m => ?_⟩
      simp only [invoke]
      norm_num
      cases (read_file fs "x").1 <;> simp
    · refine ⟨.pathContentArgs "x" "y", fun env fs m => ?_⟩
      simp only [invoke]
      norm_num
      cases (write_file fs "x" "y").1 <;> simp

theorem invoke_registry_spec_witness :
    "delete_file" ∉ registeredCommands ∧
    (invoke envDemo fsDemo "delete_file" (.pathArgs "x")).1 =
      .boundaryError "command delete_file not found" :=
  ⟨by decide,
   (invoke_registry_spec.2.2.1 "delete_file" (by decide) envDemo fsDemo
      (.pathArgs "x")).1⟩

end TauriBridge
